import Mathlib

/-!
Verification of the provisioning-lifecycle orchestrator
(`src/cli/kaos_cli/facades/backend_facade.py`).

The facade's pure logic (`_parse_config`, `_get_vars`, the branch
structure of `_tf_init`, `build`, `destroy`, `init`) is embedded as
executable Lean functions.  Effectful calls to the external
collaborators (the IaC engine, the HTTP cleanup endpoint, the state
service, the filesystem) are modelled by an oracle that fixes each
call's outcome, and every run returns its result together with the
ordered trace of calls it issued, so that sequencing and
partial-failure properties can be stated about the trace.
-/

namespace Kaos

/-- Modelled from the spec: the provider identifiers from
`kaos_cli.constants` (not under `src/`): two purely local runtimes
(`DOCKER`, `MINIKUBE`) and the cloud providers (`AWS`, `GCP`). -/
inductive Provider where
  | DOCKER
  | MINIKUBE
  | AWS
  | GCP
deriving DecidableEq, Repr

/-- Modelled from the spec: the static provider-to-working-directory
registry `PROVIDER_DICT` from `kaos_cli.constants` (not under `src/`);
the concrete path strings are opaque to the orchestrator logic. -/
def PROVIDER_DICT : Provider → String
  | .DOCKER => "docker"
  | .MINIKUBE => "minikube"
  | .AWS => "aws"
  | .GCP => "gcp"

/-- Modelled from the spec: the provider-to-local-backend-config
registry `LOCAL_CONFIG_DICT` from `kaos_cli.constants` (not under
`src/`). -/
def LOCAL_CONFIG_DICT : Provider → String
  | .DOCKER => "docker/local.tf"
  | .MINIKUBE => "minikube/local.tf"
  | .AWS => "aws/local.tf"
  | .GCP => "gcp/local.tf"

/-- Modelled from the spec: fixed project-relative artifact paths
(`TF_DIR`, `TF_STATE`, `TF_STATE_BACKUP`, `TF_CONFIG_JSON`) from
`kaos_cli.constants` (not under `src/`). -/
def TF_DIR : String := ".kaos"

/-- Modelled from the spec: the IaC state-file path. -/
def TF_STATE : String := "terraform.tfstate"

/-- Modelled from the spec: the IaC state-backup path. -/
def TF_STATE_BACKUP : String := "terraform.tfstate.backup"

/-- Modelled from the spec: the IaC JSON output-artifact path. -/
def TF_CONFIG_JSON : String := "config.json"

/-- Modelled from the spec: the `BACKEND` state-section name from
`kaos_cli.constants` (not under `src/`). -/
def BACKEND : String := "backend"

/-- Modelled from the spec: the `INFRASTRUCTURE` state-section name
from `kaos_cli.constants` (not under `src/`). -/
def INFRASTRUCTURE : String := "infrastructure"

/-- `is_cloud_provider` (line 16-17): `cloud not in (DOCKER, MINIKUBE)`. -/
def is_cloud_provider (cloud : Provider) : Bool :=
  !(cloud = Provider.DOCKER || cloud = Provider.MINIKUBE)

/-- One entry of the `backend_domain` array of the IaC output
artifact: a JSON object optionally carrying `hostname` and `ip`
string values (`none` models an absent key, `some ""` a key present
with an empty value). -/
structure DomainEntry where
  hostname : Option String
  ip : Option String
deriving DecidableEq, Repr

/-- The `backend_port` value of the output artifact: a JSON string or
number (the source applies Python `int()` to it). -/
inductive JPort where
  | str (s : String)
  | num (n : Int)
deriving DecidableEq, Repr

/-- The IaC JSON output artifact read by `_parse_config` (line 121-122):
`backend_domain`, `backend_port`, `backend_path`, `kubeconfig`. -/
structure TfConfig where
  backend_domain : List DomainEntry
  backend_port : JPort
  backend_path : String
  kubeconfig : String
deriving DecidableEq, Repr

/-- Python truthiness of an optional string: `None` and `""` are
falsy, any non-empty string is truthy. -/
def truthy : Option String → Bool
  | none => false
  | some s => !s.isEmpty

/-- Python `x or y` on optional strings: `y` when `x` is falsy. -/
def pyOr (x y : Option String) : Option String :=
  if truthy x then x else y

/-- Python `str`/f-string interpolation of an optional string:
`None` renders as the literal string `"None"`. -/
def pyStr : Option String → String
  | none => "None"
  | some s => s

/-- Accumulator pass of the decimal parser behind Python `int()`:
consume decimal digits, failing on any other character. -/
def pyIntDigits : List Char → Nat → Option Nat
  | [], acc => some acc
  | c :: cs, acc =>
    if 48 ≤ c.toNat && c.toNat ≤ 57
      then pyIntDigits cs (acc * 10 + (c.toNat - 48))
      else none

/-- Python `int()` on a string: an optional sign followed by a
non-empty run of decimal digits; anything else raises `ValueError`. -/
def pyIntOfString (s : String) : Option Int :=
  match s.toList with
  | [] => none
  | c :: cs =>
    if c = '-' then
      if cs.isEmpty then none else (pyIntDigits cs 0).map (fun n => -(n : Int))
    else if c = '+' then
      if cs.isEmpty then none else (pyIntDigits cs 0).map (fun n => (n : Int))
    else (pyIntDigits (c :: cs) 0).map (fun n => (n : Int))

/-- Python `int()` applied to a `backend_port` value: identity on a
number, decimal parse on a string, `ValueError` otherwise. -/
def pyInt : JPort → Except Unit Int
  | .num n => .ok n
  | .str s =>
    match pyIntOfString s with
    | some n => .ok n
    | none => .error ()

/-- The error kinds an orchestrator run can surface: `envError` from
the delegated environment check, `ioError` from filesystem access,
`tfError` from any IaC-engine call, and the `_parse_config` errors
(`indexError` for an empty `backend_domain`, `hostnameError` for no
usable domain, `valueError` from `int()`). -/
inductive PyErr where
  | envError
  | ioError
  | tfError
  | hostnameError
  | indexError
  | valueError
deriving DecidableEq, Repr

/-- `BackendFacade._parse_config` (lines 116-137), the pure part after
the artifact file has been read: take `backend_domain[0]` (IndexError
when empty), `domain = hostname or ip`, raise `HostnameError` when
`domain` is falsy, coerce the port with `int()`, and compose
`"http://{domain}:{port}{path}"`, returning it with the raw
`kubeconfig` value. -/
def parse_config (raw_config : TfConfig) : Except PyErr (String × String) :=
  match raw_config.backend_domain with
  | [] => .error .indexError
  | domain_value :: _ =>
    let hostname := domain_value.hostname
    let ip := domain_value.ip
    let domain := pyOr hostname ip
    if truthy domain then
      match pyInt raw_config.backend_port with
      | .error _ => .error .valueError
      | .ok port =>
        let path := raw_config.backend_path
        let url := "http://" ++ pyStr domain ++ ":" ++ toString port ++ path
        .ok (url, raw_config.kubeconfig)
    else
      .error .hostnameError

/-- `BackendFacade._get_vars` (lines 139-161): always start with
`--var config_dir={abspath(.)} `; for `AWS` append the three
credential variables read from the environment, for `GCP` append the
credentials-file path, each as `--var key=value` tokens joined by a
space.  `getenv` models `os.getenv` and `cwd` models
`os.path.abspath(".")`. -/
def get_vars (getenv : String → Option String) (cwd : String)
    (provider : Provider) : String :=
  let out_dir := cwd
  let extra_vars := "--var config_dir=" ++ out_dir ++ " "
  let extra_vars :=
    if provider = Provider.AWS then
      let key_id := getenv "AWS_ACCESS_KEY_ID"
      let secret_key := getenv "AWS_SECRET_ACCESS_KEY"
      let region := getenv "AWS_DEFAULT_REGION"
      extra_vars ++ String.intercalate " "
        (["aws_access_key_id=" ++ pyStr key_id,
          "aws_secret_access_key=" ++ pyStr secret_key,
          "region=" ++ pyStr region].map (fun x => "--var " ++ x))
    else extra_vars
  let extra_vars :=
    if provider = Provider.GCP then
      let google_application_credentials :=
        getenv "GOOGLE_APPLICATION_CREDENTIALS"
      extra_vars ++ String.intercalate " "
        (["credentials_path=" ++ pyStr google_application_credentials].map
          (fun x => "--var " ++ x))
    else extra_vars
  extra_vars

/-- One observable call to an external collaborator, recorded in
order in a run's trace: the IaC engine operations, the filesystem
copies and removals, the HTTP cleanup request, and the state-service
operations. -/
inductive Event where
  | setVerbose (v : Bool)
  | checkEnv (p : Provider)
  | copyTree (src dst : String)
  | copyLocal (src dst : String)
  | tfInit (dir : String)
  | newWorkspace (dir env : String)
  | selectWorkspace (dir env : String)
  | tfPlan (dir vars : String)
  | tfApply (dir vars : String)
  | tfDestroy (dir vars : String)
  | httpDelete (url : String)
  | stateCreate
  | stateSet (sec : String) (kv : List (String × String))
  | stateWrite
  | stateDelete
  | rmTree (dir : String)
  | rmFile (path : String)
deriving DecidableEq, Repr

/-- The trace of external calls a run issues, in program order. -/
abbrev Trace := List Event

/-- The outcome of a (partial) run: the Python result — a value or a
propagated exception — together with the calls issued up to that
point. -/
def M (α : Type) : Type := Except PyErr α × Trace

/-- A run that returns `a` without touching any collaborator. -/
def ret {α : Type} (a : α) : M α := (.ok a, [])

/-- A run consisting of one call that always returns normally. -/
def emit (e : Event) : M Unit := (.ok (), [e])

/-- A run consisting of one call that returns normally when `ok` and
raises `err` otherwise.  The call is recorded in the trace either
way: it was issued. -/
def call (ok : Bool) (e : Event) (err : PyErr) : M Unit :=
  (if ok then .ok () else .error err, [e])

/-- Python sequencing: run `x`; on a propagated exception stop there,
otherwise continue with `f` on the returned value, concatenating the
traces. -/
def seq {α β : Type} (x : M α) (f : α → M β) : M β :=
  match x.1 with
  | .error e => (.error e, x.2)
  | .ok a => ((f a).1, x.2 ++ (f a).2)

/-- Modelled from the spec: the outcomes of the external
collaborators for one orchestrator invocation — `kaos_cli.constants`,
`check_environment`, `StateService`, `TerraformService` and
`requests` are not under `src/`; per the spec's interface section the
IaC operations and the environment check may fail, propagating as
fatal errors, while the state service's operations and the remote
cleanup call return without raising (the cleanup call's HTTP result
is not inspected by the source).  Booleans fix whether each fallible
call returns normally; the remaining fields fix the values the
collaborators return. -/
structure Oracle where
  /-- The ambient environment, read by `os.getenv`. -/
  getenv : String → Option String
  /-- `os.path.abspath(".")`. -/
  cwd : String
  /-- Whether `check_environment(provider)` returns normally. -/
  checkEnvOk : Bool
  /-- Whether `copy_tree` returns normally. -/
  copyTreeOk : Bool
  /-- Whether `tf_service.init` returns normally. -/
  initOk : Bool
  /-- The value returned by `tf_service.exists_workspace`. -/
  existsWorkspace : Bool
  /-- Whether `tf_service.new_workspace` returns normally. -/
  newWsOk : Bool
  /-- Whether `tf_service.select_workspace` returns normally. -/
  selectWsOk : Bool
  /-- Whether `tf_service.plan` returns normally. -/
  planOk : Bool
  /-- Whether `tf_service.apply` returns normally. -/
  applyOk : Bool
  /-- Whether `tf_service.destroy` returns normally. -/
  destroyOk : Bool
  /-- `os.path.isdir` on the `__working_{env}` directory. -/
  workingDirExists : Bool
  /-- The parsed content of `TF_CONFIG_JSON`, `none` when opening or
  decoding the file raises. -/
  config : Option TfConfig
  /-- The fresh `uuid.uuid4()` value, rendered as a string. -/
  freshToken : String
  /-- The value returned by `state_service.is_created()`. -/
  stateCreated : Bool
  /-- The value returned by `state_service.has_section(BACKEND)`. -/
  hasBackendSection : Bool
  /-- The value of `state_service.get(BACKEND, "url")`. -/
  stateUrl : String
  /-- `os.path.exists(TF_STATE)`. -/
  tfStateExists : Bool
  /-- `os.path.exists(TF_CONFIG_JSON)`. -/
  tfConfigExists : Bool
  /-- `os.path.exists(TF_STATE_BACKUP)`. -/
  tfStateBackupExists : Bool

/-- The tail of the cloud branch of `_tf_init` (lines 106-111): the
optional local-backend config copy, `tf_service.init`, workspace
creation when absent, and workspace selection, returning the working
directory. -/
def tf_init_rest (o : Oracle) (provider : Provider) (env directory : String)
    (local_backend : Bool) : M String :=
  seq (if local_backend
         then emit (.copyLocal (LOCAL_CONFIG_DICT provider) directory)
         else ret ()) (fun _ =>
  seq (call o.initOk (.tfInit directory) .tfError) (fun _ =>
  seq (if !o.existsWorkspace
         then call o.newWsOk (.newWorkspace directory env) .tfError
         else ret ()) (fun _ =>
  seq (call o.selectWsOk (.selectWorkspace directory env) .tfError) (fun _ =>
  ret directory))))

/-- `BackendFacade._tf_init` (lines 98-114): look up the provider
directory, run the delegated environment check, and for a cloud
provider copy the environment template into the `__working_{env}`
directory unless destroying an already-materialized workspace, then
initialize the engine and select the per-environment workspace; for a
local provider just initialize the engine in the provider directory. -/
def tf_init (o : Oracle) (provider : Provider) (env : String)
    (local_backend : Bool) (destroying : Bool) : M String :=
  let directory := PROVIDER_DICT provider
  seq (call o.checkEnvOk (.checkEnv provider) .envError) (fun _ =>
  if is_cloud_provider provider then
    let provider_directory := directory ++ "/" ++ env
    let directory := directory ++ "/__working_" ++ env
    seq (if !destroying || !o.workingDirExists
           then call o.copyTreeOk (.copyTree provider_directory directory) .ioError
           else ret ()) (fun _ =>
    tf_init_rest o provider env directory local_backend)
  else
    seq (call o.initOk (.tfInit directory) .tfError) (fun _ =>
    ret directory))

/-- The `with open(TF_CONFIG_JSON) ... _parse_config` step of `build`
(line 61 together with lines 121-122): reading the artifact file
raises when it is absent, otherwise the pure `parse_config` runs on
its content. -/
def readParseConfig (o : Oracle) : M (String × String) :=
  match o.config with
  | none => (.error .ioError, [])
  | some raw_config =>
    match parse_config raw_config with
    | .error e => (.error e, [])
    | .ok uk => (.ok uk, [])

/-- The state-persistence tail of `build` (lines 63-66):
`create`, `set(BACKEND, url, token=uuid4())`,
`set(INFRASTRUCTURE, kubeconfig)`, `write`. -/
def build_finish (o : Oracle) (uk : String × String) : M Unit :=
  seq (emit .stateCreate) (fun _ =>
  seq (emit (.stateSet BACKEND [("url", uk.1), ("token", o.freshToken)])) (fun _ =>
  seq (emit (.stateSet INFRASTRUCTURE [("kubeconfig", uk.2)])) (fun _ =>
  emit .stateWrite)))

/-- `BackendFacade.build` (lines 53-66): derive variables, set
verbosity, prepare the workspace with `destroying=False`, plan,
apply, parse the output artifact, and only then persist the state. -/
def build (o : Oracle) (provider : Provider) (env : String)
    (local_backend : Bool) (verbose : Bool) : M Unit :=
  let extra_vars := get_vars o.getenv o.cwd provider
  seq (emit (.setVerbose verbose)) (fun _ =>
  seq (tf_init o provider env local_backend false) (fun directory =>
  seq (call o.planOk (.tfPlan directory extra_vars) .tfError) (fun _ =>
  seq (call o.applyOk (.tfApply directory extra_vars) .tfError) (fun _ =>
  seq (readParseConfig o) (fun uk =>
  build_finish o uk)))))

/-- `BackendFacade._delete_resources` (lines 94-96): when the
persisted state has a `BACKEND` section, issue
`DELETE {self.url}/internal/resources`; the response is not
inspected. -/
def delete_resources (o : Oracle) : M Unit :=
  if o.hasBackendSection
    then emit (.httpDelete (o.stateUrl ++ "/internal/resources"))
    else ret ()

/-- `BackendFacade._remove_build_files` (lines 80-92): delete the
persisted state, remove the `TF_DIR` tree (errors ignored), and
remove each of `TF_STATE`, `TF_CONFIG_JSON`, `TF_STATE_BACKUP` when
it exists. -/
def remove_build_files (o : Oracle) : M Unit :=
  seq (emit .stateDelete) (fun _ =>
  seq (emit (.rmTree TF_DIR)) (fun _ =>
  seq (if o.tfStateExists then emit (.rmFile TF_STATE) else ret ()) (fun _ =>
  seq (if o.tfConfigExists then emit (.rmFile TF_CONFIG_JSON) else ret ()) (fun _ =>
  if o.tfStateBackupExists then emit (.rmFile TF_STATE_BACKUP) else ret ()))))

/-- `BackendFacade.destroy` (lines 68-75): derive variables, set
verbosity, prepare the workspace with `destroying=True`, issue the
remote resource cleanup, invoke the IaC destroy, then remove the
build files. -/
def destroy (o : Oracle) (provider : Provider) (env : String)
    (verbose : Bool) : M Unit :=
  let extra_vars := get_vars o.getenv o.cwd provider
  seq (emit (.setVerbose verbose)) (fun _ =>
  seq (tf_init o provider env false true) (fun directory =>
  seq (delete_resources o) (fun _ =>
  seq (call o.destroyOk (.tfDestroy directory extra_vars) .tfError) (fun _ =>
  remove_build_files o))))

/-- `BackendFacade.init` (lines 46-51): create the state only when it
is not yet created, then set the `BACKEND` url and token and write. -/
def init (o : Oracle) (url token : String) : M Unit :=
  seq (if !o.stateCreated then emit .stateCreate else ret ()) (fun _ =>
  seq (emit (.stateSet BACKEND [("url", url), ("token", token)])) (fun _ =>
  emit .stateWrite))

/-- Recognizer for the `state_service.create()` call. -/
def isStateCreate : Event → Bool
  | .stateCreate => true
  | _ => false

/-- Recognizer for any `state_service.set(...)` call. -/
def isStateSet : Event → Bool
  | .stateSet _ _ => true
  | _ => false

/-- Recognizer for a `state_service.set(sec, ...)` call on a given
section. -/
def isStateSetAt (sec : String) : Event → Bool
  | .stateSet s _ => s == sec
  | _ => false

/-- Recognizer for the `state_service.write()` call. -/
def isStateWrite : Event → Bool
  | .stateWrite => true
  | _ => false

/-- Recognizer for any state-mutating persistence call
(`create`, `set`, or `write`). -/
def isStateTouch (e : Event) : Bool :=
  isStateCreate e || isStateSet e || isStateWrite e

/-- Recognizer for the `state_service.delete()` call. -/
def isStateDelete : Event → Bool
  | .stateDelete => true
  | _ => false

/-- Recognizer for the remote cleanup `requests.delete` call. -/
def isHttpDelete : Event → Bool
  | .httpDelete _ => true
  | _ => false

/-- Recognizer for the `tf_service.destroy` call. -/
def isTfDestroy : Event → Bool
  | .tfDestroy _ _ => true
  | _ => false

/-- Recognizer for the `tf_service.apply` call. -/
def isTfApply : Event → Bool
  | .tfApply _ _ => true
  | _ => false

/-- Recognizer for the `copy_tree` template-materialization call. -/
def isCopyTree : Event → Bool
  | .copyTree _ _ => true
  | _ => false

/-- Recognizer for the `shutil.rmtree` call. -/
def isRmTree : Event → Bool
  | .rmTree _ => true
  | _ => false

/-- Recognizer for an `os.remove` call on a given path. -/
def isRmFileAt (path : String) : Event → Bool
  | .rmFile q => q == path
  | _ => false

/-- Recognizer for the calls `_tf_init` may issue. -/
def isWorkspaceEvent : Event → Bool
  | .checkEnv _ => true
  | .copyTree _ _ => true
  | .copyLocal _ _ => true
  | .tfInit _ => true
  | .newWorkspace _ _ => true
  | .selectWorkspace _ _ => true
  | _ => false

/-- Holds of a trace in which no remote-cleanup call occurs at or
after the first IaC destroy call: scanning left to right, once the
destroy call is reached no later `httpDelete` may appear. -/
def noHttpDeleteFromDestroy : Trace → Bool
  | [] => true
  | e :: tr => if isTfDestroy e then !tr.any isHttpDelete
               else noHttpDeleteFromDestroy tr

/-- Holds of a trace in which no state-mutating persistence call
occurs before the first IaC apply call. -/
def noStateBeforeApply : Trace → Bool
  | [] => true
  | e :: tr => if isStateTouch e then false
               else if isTfApply e then true
               else noStateBeforeApply tr

/-- Sequencing after a normal return concatenates the traces. -/
theorem seq_ok {α β : Type} {x : M α} {a : α} (h : x.1 = .ok a)
    (f : α → M β) : seq x f = ((f a).1, x.2 ++ (f a).2) := by
  unfold seq
  rw [h]

/-- Sequencing after a propagated exception stops there. -/
theorem seq_err {α β : Type} {x : M α} {e : PyErr} (h : x.1 = .error e)
    (f : α → M β) : seq x f = (.error e, x.2) := by
  unfold seq
  rw [h]

/-- A trace-wide property is preserved by sequencing when both parts
satisfy it. -/
theorem seq_forall {α β : Type} {P : Event → Bool} {x : M α} {f : α → M β}
    (hx : ∀ e ∈ x.2, P e = true) (hf : ∀ a, ∀ e ∈ (f a).2, P e = true) :
    ∀ e ∈ (seq x f).2, P e = true := by
  intro e he
  unfold seq at he
  cases h : x.1 with
  | error er =>
    rw [h] at he
    exact hx e he
  | ok a =>
    rw [h] at he
    rcases List.mem_append.mp he with h1 | h2
    · exact hx e h1
    · exact hf a e h2

/-- A trace-wide property is preserved by a conditional when both
branches satisfy it. -/
theorem ite_forall {α : Type} {P : Event → Bool} {c : Prop} [Decidable c]
    {x y : M α} (hx : ∀ e ∈ x.2, P e = true) (hy : ∀ e ∈ y.2, P e = true) :
    ∀ e ∈ (if c then x else y).2, P e = true := by
  by_cases h : c
  · simpa [h] using hx
  · simpa [h] using hy

/-- Every call issued by the cloud tail of `_tf_init` is a
workspace-preparation call. -/
theorem tf_init_rest_events (o : Oracle) (provider : Provider)
    (env directory : String) (lb : Bool) :
    ∀ e ∈ (tf_init_rest o provider env directory lb).2, isWorkspaceEvent e = true := by
  unfold tf_init_rest
  apply seq_forall
  · apply ite_forall <;> intro e he <;> simp [emit, ret] at he
    subst he
    rfl
  intro a
  apply seq_forall
  · intro e he
    simp [call] at he
    subst he
    rfl
  intro a2
  apply seq_forall
  · apply ite_forall <;> intro e he <;> simp [call, ret] at he
    subst he
    rfl
  intro a3
  apply seq_forall
  · intro e he
    simp [call] at he
    subst he
    rfl
  intro a4
  intro e he
  simp [ret] at he

/-- Every call issued by `_tf_init` is a workspace-preparation call:
in particular `_tf_init` never touches the persisted state, the HTTP
endpoint, the plan/apply/destroy operations, or the artifact
removals. -/
theorem tf_init_events (o : Oracle) (provider : Provider) (env : String)
    (lb destroying : Bool) :
    ∀ e ∈ (tf_init o provider env lb destroying).2, isWorkspaceEvent e = true := by
  unfold tf_init
  apply seq_forall
  · intro e he
    simp [call] at he
    subst he
    rfl
  intro a
  apply ite_forall
  · apply seq_forall
    · apply ite_forall <;> intro e he <;> simp [call, ret] at he
      subst he
      rfl
    intro a2
    exact tf_init_rest_events o provider env _ lb
  · apply seq_forall
    · intro e he
      simp [call] at he
      subst he
      rfl
    intro a2
    intro e he
    simp [ret] at he

/-- If every event of a trace satisfies `isWorkspaceEvent`, then any
recognizer that rejects all workspace events is false on the whole
trace. -/
theorem any_false_of_ws {P : Event → Bool} {tr : Trace}
    (htr : ∀ e ∈ tr, isWorkspaceEvent e = true)
    (h : ∀ e, isWorkspaceEvent e = true → P e = false) :
    tr.any P = false := by
  rw [List.any_eq_false]
  intro e he
  rw [h e (htr e he)]
  simp

/-- `_tf_init` issues no state-persistence call. -/
theorem tf_init_no_stateTouch (o : Oracle) (p : Provider) (env : String)
    (lb d : Bool) : (tf_init o p env lb d).2.any isStateTouch = false := by
  apply any_false_of_ws (tf_init_events o p env lb d)
  intro e he
  cases e <;> simp_all [isWorkspaceEvent, isStateTouch, isStateCreate, isStateSet, isStateWrite]

/-- `_tf_init` issues no state-delete call. -/
theorem tf_init_no_stateDelete (o : Oracle) (p : Provider) (env : String)
    (lb d : Bool) : (tf_init o p env lb d).2.any isStateDelete = false := by
  apply any_false_of_ws (tf_init_events o p env lb d)
  intro e he
  cases e <;> simp_all [isWorkspaceEvent, isStateDelete]

/-- `_tf_init` issues no remote-cleanup call. -/
theorem tf_init_no_httpDelete (o : Oracle) (p : Provider) (env : String)
    (lb d : Bool) : (tf_init o p env lb d).2.any isHttpDelete = false := by
  apply any_false_of_ws (tf_init_events o p env lb d)
  intro e he
  cases e <;> simp_all [isWorkspaceEvent, isHttpDelete]

/-- `_tf_init` issues no IaC destroy call. -/
theorem tf_init_no_tfDestroy (o : Oracle) (p : Provider) (env : String)
    (lb d : Bool) : (tf_init o p env lb d).2.any isTfDestroy = false := by
  apply any_false_of_ws (tf_init_events o p env lb d)
  intro e he
  cases e <;> simp_all [isWorkspaceEvent, isTfDestroy]

/-- `_tf_init` issues no IaC apply call. -/
theorem tf_init_no_tfApply (o : Oracle) (p : Provider) (env : String)
    (lb d : Bool) : (tf_init o p env lb d).2.any isTfApply = false := by
  apply any_false_of_ws (tf_init_events o p env lb d)
  intro e he
  cases e <;> simp_all [isWorkspaceEvent, isTfApply]

/-- `_tf_init` removes no tree. -/
theorem tf_init_no_rmTree (o : Oracle) (p : Provider) (env : String)
    (lb d : Bool) : (tf_init o p env lb d).2.any isRmTree = false := by
  apply any_false_of_ws (tf_init_events o p env lb d)
  intro e he
  cases e <;> simp_all [isWorkspaceEvent, isRmTree]

/-- `_tf_init` removes no file. -/
theorem tf_init_no_rmFile (o : Oracle) (p : Provider) (env path : String)
    (lb d : Bool) : (tf_init o p env lb d).2.any (isRmFileAt path) = false := by
  apply any_false_of_ws (tf_init_events o p env lb d)
  intro e he
  cases e <;> simp_all [isWorkspaceEvent, isRmFileAt]

/-- Scanning for a cleanup call after destroy skips any prefix that
contains no destroy call. -/
theorem noHttpDeleteFromDestroy_append {tr1 tr2 : Trace}
    (h : tr1.any isTfDestroy = false) :
    noHttpDeleteFromDestroy (tr1 ++ tr2) = noHttpDeleteFromDestroy tr2 := by
  induction tr1 with
  | nil => rfl
  | cons e tr ih =>
    simp only [List.any_cons, Bool.or_eq_false_iff] at h
    simp only [List.cons_append, noHttpDeleteFromDestroy, h.1]
    simpa using ih h.2

/-- A trace with no destroy call trivially has no cleanup call after
a destroy call. -/
theorem noHttpDeleteFromDestroy_of_no_destroy {tr : Trace}
    (h : tr.any isTfDestroy = false) : noHttpDeleteFromDestroy tr = true := by
  have h2 : noHttpDeleteFromDestroy (tr ++ []) = noHttpDeleteFromDestroy [] :=
    noHttpDeleteFromDestroy_append h
  simpa using h2

/-- Scanning for a state call before apply skips any prefix that
contains neither state calls nor apply calls. -/
theorem noStateBeforeApply_append {tr1 tr2 : Trace}
    (hs : tr1.any isStateTouch = false) (ha : tr1.any isTfApply = false) :
    noStateBeforeApply (tr1 ++ tr2) = noStateBeforeApply tr2 := by
  induction tr1 with
  | nil => rfl
  | cons e tr ih =>
    simp only [List.any_cons, Bool.or_eq_false_iff] at hs ha
    simp only [List.cons_append, noStateBeforeApply, hs.1, ha.1]
    simpa using ih hs.2 ha.2

/-- A trace with no state-persistence call trivially has no state
call before apply. -/
theorem noStateBeforeApply_of_no_state {tr : Trace}
    (h : tr.any isStateTouch = false) : noStateBeforeApply tr = true := by
  induction tr with
  | nil => rfl
  | cons e tr ih =>
    simp only [List.any_cons, Bool.or_eq_false_iff] at h
    simp only [noStateBeforeApply, h.1]
    cases ha : isTfApply e <;> simp [ha, ih h.2]

/-- Sequencing after an always-normal call prepends its event. -/
theorem seq_emit {β : Type} (e : Event) (f : Unit → M β) :
    seq (emit e) f = ((f ()).1, e :: (f ()).2) := rfl

/-- Sequencing after a fallible call that returns normally prepends
its event. -/
theorem seq_call_true {ok : Bool} (h : ok = true) (e : Event) (err : PyErr)
    {β : Type} (f : Unit → M β) :
    seq (call ok e err) f = ((f ()).1, e :: (f ()).2) := by
  subst h
  rfl

/-- Sequencing after a fallible call that raises stops with that
call's event as the last of the trace. -/
theorem seq_call_false {ok : Bool} (h : ok = false) (e : Event) (err : PyErr)
    {β : Type} (f : Unit → M β) :
    seq (call ok e err) f = (.error err, [e]) := by
  subst h
  rfl

/-- Sequencing after a pure value is just the continuation. -/
theorem seq_ret {α β : Type} (a : α) (f : α → M β) : seq (ret a) f = f a := by
  unfold seq ret
  simp

/-- Sequencing after an explicit raised pair stops there. -/
theorem seq_pair_err {α β : Type} (e : PyErr) (tr : Trace) (f : α → M β) :
    seq ((.error e, tr) : M α) f = (.error e, tr) := rfl

/-- Sequencing after an explicit returned pair continues. -/
theorem seq_pair_ok {α β : Type} (a : α) (tr : Trace) (f : α → M β) :
    seq ((.ok a, tr) : M α) f = ((f a).1, tr ++ (f a).2) := rfl

/-- The state-persistence tail of `build` always succeeds and issues
exactly the four persistence calls, in order. -/
theorem build_finish_eq (o : Oracle) (uk : String × String) :
    build_finish o uk =
      (.ok (), [.stateCreate,
                .stateSet BACKEND [("url", uk.1), ("token", o.freshToken)],
                .stateSet INFRASTRUCTURE [("kubeconfig", uk.2)],
                .stateWrite]) := rfl

/-- Exhaustive case analysis of a `build` run: it stops at the first
failing step — workspace preparation, plan, apply, or artifact
parsing — and only in the all-success case does it append the four
state-persistence calls to the trace. -/
theorem build_cases (o : Oracle) (p : Provider) (env : String) (lb v : Bool) :
    (∃ e, (tf_init o p env lb false).1 = .error e ∧
       build o p env lb v =
         (.error e, .setVerbose v :: (tf_init o p env lb false).2)) ∨
    (∃ dir, (tf_init o p env lb false).1 = .ok dir ∧
       ((o.planOk = false ∧
          build o p env lb v =
            (.error .tfError, .setVerbose v :: ((tf_init o p env lb false).2 ++
              [.tfPlan dir (get_vars o.getenv o.cwd p)]))) ∨
        (o.planOk = true ∧ o.applyOk = false ∧
          build o p env lb v =
            (.error .tfError, .setVerbose v :: ((tf_init o p env lb false).2 ++
              [.tfPlan dir (get_vars o.getenv o.cwd p),
               .tfApply dir (get_vars o.getenv o.cwd p)]))) ∨
        (o.planOk = true ∧ o.applyOk = true ∧
          (∃ er, (readParseConfig o).1 = .error er ∧
            build o p env lb v =
              (.error er, .setVerbose v :: ((tf_init o p env lb false).2 ++
                [.tfPlan dir (get_vars o.getenv o.cwd p),
                 .tfApply dir (get_vars o.getenv o.cwd p)])))) ∨
        (o.planOk = true ∧ o.applyOk = true ∧
          (∃ raw uk, o.config = some raw ∧ parse_config raw = .ok uk ∧
            build o p env lb v =
              (.ok (), .setVerbose v :: ((tf_init o p env lb false).2 ++
                [.tfPlan dir (get_vars o.getenv o.cwd p),
                 .tfApply dir (get_vars o.getenv o.cwd p),
                 .stateCreate,
                 .stateSet BACKEND [("url", uk.1), ("token", o.freshToken)],
                 .stateSet INFRASTRUCTURE [("kubeconfig", uk.2)],
                 .stateWrite])))))):= by
  cases hti : (tf_init o p env lb false).1 with
  | error e =>
    left
    refine ⟨e, rfl, ?_⟩
    simp only [build, seq_emit, seq_err hti]
  | ok dir =>
    right
    refine ⟨dir, rfl, ?_⟩
    cases hp : o.planOk with
    | false =>
      left
      refine ⟨rfl, ?_⟩
      simp only [build, seq_emit, seq_ok hti, seq_call_false hp]
    | true =>
      cases ha : o.applyOk with
      | false =>
        right
        left
        refine ⟨rfl, rfl, ?_⟩
        simp only [build, seq_emit, seq_ok hti, seq_call_true hp,
          seq_call_false ha]
      | true =>
        cases hcfg : o.config with
        | none =>
          right
          right
          left
          have hrc : readParseConfig o = (.error .ioError, []) := by
            simp [readParseConfig, hcfg]
          refine ⟨rfl, rfl, .ioError, by rw [hrc], ?_⟩
          simp only [build, seq_emit, seq_ok hti, seq_call_true hp,
            seq_call_true ha, hrc, seq_pair_err]
        | some raw =>
          cases hpc : parse_config raw with
          | error er =>
            right
            right
            left
            have hrc : readParseConfig o = (.error er, []) := by
              simp [readParseConfig, hcfg, hpc]
            refine ⟨rfl, rfl, er, by rw [hrc], ?_⟩
            simp only [build, seq_emit, seq_ok hti, seq_call_true hp,
              seq_call_true ha, hrc, seq_pair_err]
          | ok uk =>
            right
            right
            right
            have hrc : readParseConfig o = (.ok uk, []) := by
              simp [readParseConfig, hcfg, hpc]
            refine ⟨rfl, rfl, raw, uk, rfl, hpc, ?_⟩
            simp only [build, seq_emit, seq_ok hti, seq_call_true hp,
              seq_call_true ha, hrc, seq_pair_ok, build_finish_eq]
            simp

/-- A string that is not `""` has `isEmpty = false`. -/
theorem isEmpty_false_of_ne {s : String} (h : s ≠ "") : s.isEmpty = false := by
  cases hi : s.isEmpty
  · rfl
  · exact absurd ((String.isEmpty_iff s).mp hi) h

/-- C4: for an output artifact with a non-empty `backend_domain`,
`_parse_config` uses only the first entry (the result is invariant
under the tail), prefers a present (truthy, i.e. non-empty) hostname
over the ip, composes the URL as `http://{domain}:{port}{path}` with
the `int()`-coerced port, and returns the kubeconfig unchanged; in
particular `backend_domain=[{hostname:"h", ip:"1.2.3.4"}]`, port
`"8080"`, path `/api` yields `http://h:8080/api`. -/
theorem claim_C4 :
    (∀ (d : DomainEntry) (rest rest2 : List DomainEntry) (port : JPort)
       (path kc : String),
       parse_config ⟨d :: rest, port, path, kc⟩ =
         parse_config ⟨d :: rest2, port, path, kc⟩) ∧
    (∀ (h ipv : String) (rest : List DomainEntry) (port : JPort)
       (path kc : String) (n : Int),
       h ≠ "" → pyInt port = .ok n →
       parse_config ⟨⟨some h, some ipv⟩ :: rest, port, path, kc⟩ =
         .ok ("http://" ++ h ++ ":" ++ toString n ++ path, kc)) ∧
    (∀ kc : String,
       parse_config ⟨[⟨some "h", some "1.2.3.4"⟩], .str "8080", "/api", kc⟩ =
         .ok ("http://h:8080/api", kc)) := by
  refine ⟨fun d rest rest2 port path kc => rfl, ?_, fun kc => rfl⟩
  intro h ipv rest port path kc n hne hport
  have hemp : h.isEmpty = false := isEmpty_false_of_ne hne
  simp [parse_config, pyOr, truthy, hemp, hport, pyStr]

/-- C4 witness: the theorem instantiated at the concrete example,
with both hypotheses discharged. -/
theorem claim_C4_witness :
    ("h" : String) ≠ "" ∧ pyInt (.str "8080") = .ok 8080 ∧
    parse_config ⟨⟨some "h", some "1.2.3.4"⟩ :: [], .str "8080", "/api", "KC"⟩ =
      .ok ("http://" ++ "h" ++ ":" ++ toString (8080 : Int) ++ "/api", "KC") :=
  ⟨by decide, by rfl,
    claim_C4.2.1 "h" "1.2.3.4" [] (.str "8080") "/api" "KC" 8080
      (by decide) (by rfl)⟩

/-- C10: the domain presence check of `_parse_config` is by Python
truthiness, not key presence: a first entry with `hostname=""` and a
non-empty `ip` uses the ip as the domain, while an entry with both
keys present but both empty raises `HostnameError`. -/
theorem claim_C10 :
    (∀ (ipv : String) (rest : List DomainEntry) (port : JPort)
       (path kc : String) (n : Int),
       ipv ≠ "" → pyInt port = .ok n →
       parse_config ⟨⟨some "", some ipv⟩ :: rest, port, path, kc⟩ =
         .ok ("http://" ++ ipv ++ ":" ++ toString n ++ path, kc)) ∧
    (∀ (rest : List DomainEntry) (port : JPort) (path kc : String),
       parse_config ⟨⟨some "", some ""⟩ :: rest, port, path, kc⟩ =
         .error .hostnameError) := by
  constructor
  · intro ipv rest port path kc n hne hport
    have hemp : ipv.isEmpty = false := isEmpty_false_of_ne hne
    have hemp0 : ("" : String).isEmpty = true := by decide
    simp [parse_config, pyOr, truthy, hemp, hemp0, hport, pyStr]
  · intro rest port path kc
    rfl

/-- C10 witness: the theorem instantiated at concrete inputs, with
both hypotheses of its first part discharged. -/
theorem claim_C10_witness :
    ("1.2.3.4" : String) ≠ "" ∧ pyInt (.str "8080") = .ok 8080 ∧
    parse_config ⟨⟨some "", some "1.2.3.4"⟩ :: [], .str "8080", "/api", "KC"⟩ =
      .ok ("http://" ++ "1.2.3.4" ++ ":" ++ toString (8080 : Int) ++ "/api", "KC") :=
  ⟨by decide, by rfl,
    claim_C10.1 "1.2.3.4" [] (.str "8080") "/api" "KC" 8080
      (by decide) (by rfl)⟩

/-- C7: `_get_vars` always produces a variable string beginning with
the `config_dir` variable set to the current working directory; for
`AWS` with the three credential environment variables set to
`abc`/`xyz`/`us` it additionally carries all three as
`--var key=value` tokens, and for the credential-free local providers
only the `config_dir` variable appears. -/
theorem claim_C7 :
    (∀ (ge : String → Option String) (cwd : String) (p : Provider),
       ∃ rest, get_vars ge cwd p = "--var config_dir=" ++ cwd ++ " " ++ rest) ∧
    (∀ (ge : String → Option String) (cwd : String),
       ge "AWS_ACCESS_KEY_ID" = some "abc" →
       ge "AWS_SECRET_ACCESS_KEY" = some "xyz" →
       ge "AWS_DEFAULT_REGION" = some "us" →
       get_vars ge cwd Provider.AWS =
         "--var config_dir=" ++ cwd ++ " " ++
           "--var aws_access_key_id=abc --var aws_secret_access_key=xyz --var region=us") ∧
    (∀ (ge : String → Option String) (cwd : String),
       get_vars ge cwd Provider.DOCKER = "--var config_dir=" ++ cwd ++ " " ∧
       get_vars ge cwd Provider.MINIKUBE = "--var config_dir=" ++ cwd ++ " ") := by
  refine ⟨?_, ?_, fun ge cwd => ⟨rfl, rfl⟩⟩
  · intro ge cwd p
    cases p
    · exact ⟨"", (String.append_empty _).symm⟩
    · exact ⟨"", (String.append_empty _).symm⟩
    · exact ⟨_, rfl⟩
    · exact ⟨_, rfl⟩
  · intro ge cwd h1 h2 h3
    simp only [get_vars, pyStr, h1, h2, h3, String.intercalate, List.map]
    congr 1

/-- An environment in which the three AWS credential variables are
set to the values of the spec's example. -/
def geAws : String → Option String := fun k =>
  if k = "AWS_ACCESS_KEY_ID" then some "abc"
  else if k = "AWS_SECRET_ACCESS_KEY" then some "xyz"
  else if k = "AWS_DEFAULT_REGION" then some "us"
  else none

/-- C7 witness: the theorem's AWS part instantiated at a concrete
environment, with its three hypotheses discharged. -/
theorem claim_C7_witness :
    geAws "AWS_ACCESS_KEY_ID" = some "abc" ∧
    geAws "AWS_SECRET_ACCESS_KEY" = some "xyz" ∧
    geAws "AWS_DEFAULT_REGION" = some "us" ∧
    get_vars geAws "/w" Provider.AWS =
      "--var config_dir=" ++ "/w" ++ " " ++
        "--var aws_access_key_id=abc --var aws_secret_access_key=xyz --var region=us" :=
  ⟨by decide, by decide, by decide,
    claim_C7.2.1 geAws "/w" (by decide) (by decide) (by decide)⟩

/-- An empty ambient environment: every credential variable unset. -/
def geNone : String → Option String := fun _ => none

/-- C8 counterexample: with all AWS credential variables unset,
`_get_vars` interpolates the Python literal `None` into each token —
the produced string is neither the empty-value form nor the
absent-token form the claim describes. -/
theorem claim_C8_counterexample :
    get_vars geNone "/w" Provider.AWS =
      "--var config_dir=/w --var aws_access_key_id=None --var aws_secret_access_key=None --var region=None" ∧
    get_vars geNone "/w" Provider.AWS ≠
      "--var config_dir=/w --var aws_access_key_id= --var aws_secret_access_key= --var region=" ∧
    get_vars geNone "/w" Provider.AWS ≠ "--var config_dir=/w " := by
  exact ⟨by decide, by decide, by decide⟩

/-- C8 amended: for a credential-bearing provider with a required
credential environment variable unset, `_get_vars` does not fail (it
is total) and still emits the corresponding `--var key=value` token,
with the value rendered as the Python string `None` (the f-string
image of the absent value), not as an empty or omitted value. -/
theorem claim_C8_amended :
    ∀ (ge : String → Option String) (cwd : String),
      (ge "AWS_ACCESS_KEY_ID" = none → ge "AWS_SECRET_ACCESS_KEY" = none →
       ge "AWS_DEFAULT_REGION" = none →
       get_vars ge cwd Provider.AWS =
         "--var config_dir=" ++ cwd ++ " " ++
           "--var aws_access_key_id=None --var aws_secret_access_key=None --var region=None") ∧
      (ge "GOOGLE_APPLICATION_CREDENTIALS" = none →
       get_vars ge cwd Provider.GCP =
         "--var config_dir=" ++ cwd ++ " " ++ "--var credentials_path=None") := by
  intro ge cwd
  constructor
  · intro h1 h2 h3
    simp only [get_vars, pyStr, h1, h2, h3, String.intercalate, List.map]
    congr 1
  · intro h1
    simp only [get_vars, pyStr, h1, String.intercalate, List.map]
    congr 1

/-- C8 amended witness: the amended theorem instantiated at the empty
environment, with all hypotheses discharged. -/
theorem claim_C8_amended_witness :
    (geNone "AWS_ACCESS_KEY_ID" = none ∧
     get_vars geNone "/w" Provider.AWS =
       "--var config_dir=" ++ "/w" ++ " " ++
         "--var aws_access_key_id=None --var aws_secret_access_key=None --var region=None") ∧
    (geNone "GOOGLE_APPLICATION_CREDENTIALS" = none ∧
     get_vars geNone "/w" Provider.GCP =
       "--var config_dir=" ++ "/w" ++ " " ++ "--var credentials_path=None") :=
  ⟨⟨rfl, (claim_C8_amended geNone "/w").1 rfl rfl rfl⟩,
   ⟨rfl, (claim_C8_amended geNone "/w").2 rfl⟩⟩

/-- `_tf_init` issues no `state_service.set` call on any section. -/
theorem tf_init_no_stateSetAt (o : Oracle) (p : Provider) (env s : String)
    (lb d : Bool) : (tf_init o p env lb d).2.any (isStateSetAt s) = false := by
  apply any_false_of_ws (tf_init_events o p env lb d)
  intro e he
  cases e <;> simp_all [isWorkspaceEvent, isStateSetAt]

/-- `_tf_init` issues no `state_service.create` call. -/
theorem tf_init_no_stateCreate (o : Oracle) (p : Provider) (env : String)
    (lb d : Bool) : (tf_init o p env lb d).2.any isStateCreate = false := by
  apply any_false_of_ws (tf_init_events o p env lb d)
  intro e he
  cases e <;> simp_all [isWorkspaceEvent, isStateCreate]

/-- Scanning for a state call before apply skips one event that is
neither. -/
theorem noStateBeforeApply_cons_skip {e : Event} {tr : Trace}
    (hs : isStateTouch e = false) (ha : isTfApply e = false) :
    noStateBeforeApply (e :: tr) = noStateBeforeApply tr := by
  simp [noStateBeforeApply, hs, ha]

/-- Scanning for a state call before apply succeeds at an apply
event. -/
theorem noStateBeforeApply_cons_apply {e : Event} {tr : Trace}
    (hs : isStateTouch e = false) (ha : isTfApply e = true) :
    noStateBeforeApply (e :: tr) = true := by
  simp [noStateBeforeApply, hs, ha]

/-- The two state-section names differ. -/
theorem beq_infra_backend : (INFRASTRUCTURE == BACKEND) = false := by decide

/-- The two state-section names differ. -/
theorem beq_backend_infra : (BACKEND == INFRASTRUCTURE) = false := by decide

/-- C2: in every `build` run, the persisted state is touched exactly
when the whole run succeeded — a failure of variable derivation,
workspace preparation, plan, apply, or endpoint resolution leaves the
state untouched; the `BACKEND` and `INFRASTRUCTURE` sections are set
together; success implies plan and apply returned normally and the
output artifact parsed; and no state call ever precedes the apply
call in the trace. -/
theorem claim_C2 (o : Oracle) (p : Provider) (env : String) (lb v : Bool) :
    ((build o p env lb v).2.any isStateTouch = true ↔
       (build o p env lb v).1 = .ok ()) ∧
    ((build o p env lb v).2.any (isStateSetAt BACKEND) =
       (build o p env lb v).2.any (isStateSetAt INFRASTRUCTURE)) ∧
    ((build o p env lb v).1 = .ok () →
       o.planOk = true ∧ o.applyOk = true ∧
       ∃ raw uk, o.config = some raw ∧ parse_config raw = .ok uk) ∧
    noStateBeforeApply (build o p env lb v).2 = true := by
  have hns := tf_init_no_stateTouch o p env lb false
  have hna := tf_init_no_tfApply o p env lb false
  have hnsB := tf_init_no_stateSetAt o p env BACKEND lb false
  have hnsI := tf_init_no_stateSetAt o p env INFRASTRUCTURE lb false
  rcases build_cases o p env lb v with
    ⟨e, hti, hb⟩ | ⟨dir, hti, ⟨hpl, hb⟩ | ⟨hpl, hap, hb⟩ |
      ⟨hpl, hap, er, hrc, hb⟩ | ⟨hpl, hap, raw, uk, hcfg, hpc, hb⟩⟩
  · rw [hb]
    have h1 : (Event.setVerbose v :: (tf_init o p env lb false).2).any
        isStateTouch = false := by
      simp [hns, isStateTouch, isStateCreate, isStateSet, isStateWrite]
    refine ⟨by simp [h1], by simp [hnsB, hnsI, isStateSetAt], by simp, ?_⟩
    exact noStateBeforeApply_of_no_state h1
  · rw [hb]
    have h1 : (Event.setVerbose v :: ((tf_init o p env lb false).2 ++
        [Event.tfPlan dir (get_vars o.getenv o.cwd p)])).any
        isStateTouch = false := by
      simp [hns, isStateTouch, isStateCreate, isStateSet, isStateWrite]
    refine ⟨by simp [h1], by simp [hnsB, hnsI, isStateSetAt], by simp, ?_⟩
    exact noStateBeforeApply_of_no_state h1
  · rw [hb]
    have h1 : (Event.setVerbose v :: ((tf_init o p env lb false).2 ++
        [Event.tfPlan dir (get_vars o.getenv o.cwd p),
         Event.tfApply dir (get_vars o.getenv o.cwd p)])).any
        isStateTouch = false := by
      simp [hns, isStateTouch, isStateCreate, isStateSet, isStateWrite]
    refine ⟨by simp [h1], by simp [hnsB, hnsI, isStateSetAt], by simp, ?_⟩
    exact noStateBeforeApply_of_no_state h1
  · rw [hb]
    have h1 : (Event.setVerbose v :: ((tf_init o p env lb false).2 ++
        [Event.tfPlan dir (get_vars o.getenv o.cwd p),
         Event.tfApply dir (get_vars o.getenv o.cwd p)])).any
        isStateTouch = false := by
      simp [hns, isStateTouch, isStateCreate, isStateSet, isStateWrite]
    refine ⟨by simp [h1], by simp [hnsB, hnsI, isStateSetAt], by simp, ?_⟩
    exact noStateBeforeApply_of_no_state h1
  · rw [hb]
    refine ⟨?_, ?_, ?_, ?_⟩
    · simp [isStateTouch, isStateCreate, isStateSet, isStateWrite]
    · simp [hnsB, hnsI, isStateSetAt, beq_infra_backend, beq_backend_infra]
    · intro h2
      exact ⟨hpl, hap, raw, uk, hcfg, hpc⟩
    · rw [noStateBeforeApply_cons_skip (by rfl) (by rfl),
        noStateBeforeApply_append hns hna,
        noStateBeforeApply_cons_skip (by rfl) (by rfl)]
      exact noStateBeforeApply_cons_apply (by rfl) (by rfl)

/-- C2 witness: a fully successful concrete run touches the state and
satisfies every conjunct. -/
def goodConfig : TfConfig :=
  ⟨[⟨some "h", some "1.2.3.4"⟩], .str "8080", "/api", "KC"⟩

/-- An oracle in which every external call returns normally and the
output artifact is well-formed. -/
def okOracle : Oracle where
  getenv := fun _ => none
  cwd := "/w"
  checkEnvOk := true
  copyTreeOk := true
  initOk := true
  existsWorkspace := false
  newWsOk := true
  selectWsOk := true
  planOk := true
  applyOk := true
  destroyOk := true
  workingDirExists := false
  config := some goodConfig
  freshToken := "tok"
  stateCreated := true
  hasBackendSection := true
  stateUrl := "http://h:8080/api"
  tfStateExists := true
  tfConfigExists := true
  tfStateBackupExists := true

/-- C2 witness: the theorem instantiated at a concrete successful
run, with the success hypothesis of its third conjunct discharged. -/
theorem claim_C2_witness :
    (build okOracle Provider.DOCKER "dev" false false).1 = .ok () ∧
    (okOracle.planOk = true ∧ okOracle.applyOk = true ∧
      ∃ raw uk, okOracle.config = some raw ∧ parse_config raw = .ok uk) :=
  ⟨by rfl, (claim_C2 okOracle Provider.DOCKER "dev" false false).2.2.1 (by rfl)⟩

/-- An output artifact whose first domain entry carries neither a
hostname nor an ip raises `HostnameError`. -/
theorem parse_config_no_domain {raw : TfConfig} {rest : List DomainEntry}
    (h : raw.backend_domain = ⟨none, none⟩ :: rest) :
    parse_config raw = .error .hostnameError := by
  unfold parse_config
  rw [h]
  rfl

/-- C5: an output artifact whose first `backend_domain` entry carries
neither a hostname nor an ip value makes `_parse_config` fail with
`HostnameError`, and in the `build` flow that failure aborts the run
before any state-persistence call is issued. -/
theorem claim_C5 :
    (∀ (rest : List DomainEntry) (port : JPort) (path kc : String),
       parse_config ⟨⟨none, none⟩ :: rest, port, path, kc⟩ =
         .error .hostnameError) ∧
    (∀ (o : Oracle) (p : Provider) (env : String) (lb v : Bool)
       (raw : TfConfig) (rest : List DomainEntry),
       o.config = some raw → raw.backend_domain = ⟨none, none⟩ :: rest →
       (build o p env lb v).1 ≠ .ok () ∧
       (build o p env lb v).2.any isStateTouch = false) := by
  constructor
  · intro rest port path kc
    rfl
  · intro o p env lb v raw rest hcfg hdom
    have hpc : parse_config raw = .error .hostnameError :=
      parse_config_no_domain hdom
    have h2 := (claim_C2 o p env lb v).1
    have h3 := (claim_C2 o p env lb v).2.2.1
    have hfail : (build o p env lb v).1 ≠ .ok () := by
      intro hok
      rcases h3 hok with ⟨hp1, hp2, raw2, uk, hcfg2, hpc2⟩
      rw [hcfg] at hcfg2
      cases hcfg2
      rw [hpc] at hpc2
      cases hpc2
    refine ⟨hfail, ?_⟩
    cases hany : (build o p env lb v).2.any isStateTouch
    · rfl
    · exact absurd (h2.mp hany) hfail

/-- An oracle whose artifact's first domain entry has neither
hostname nor ip, everything else succeeding. -/
def badDomainOracle : Oracle :=
  { okOracle with config := some ⟨[⟨none, none⟩], .str "8080", "/api", "KC"⟩ }

/-- C5 witness: the theorem instantiated at a concrete run over the
bad artifact, with both hypotheses discharged. -/
theorem claim_C5_witness :
    parse_config ⟨⟨none, none⟩ :: [], .str "8080", "/api", "KC"⟩ =
      .error .hostnameError ∧
    (badDomainOracle.config =
       some ⟨[⟨none, none⟩], .str "8080", "/api", "KC"⟩ ∧
     (build badDomainOracle Provider.DOCKER "dev" false false).1 ≠ .ok () ∧
     (build badDomainOracle Provider.DOCKER "dev" false false).2.any
       isStateTouch = false) :=
  ⟨claim_C5.1 [] (.str "8080") "/api" "KC",
   ⟨rfl, claim_C5.2 badDomainOracle Provider.DOCKER "dev" false false
      ⟨[⟨none, none⟩], .str "8080", "/api", "KC"⟩ [] rfl rfl⟩⟩

/-- C9 counterexample: in a fully successful `build` with the state
already created (`is_created` would return true), the run still
issues `state_service.create()` — `build` never consults
`is_created`, so an existing state is re-created. -/
theorem claim_C9_counterexample :
    okOracle.stateCreated = true ∧
    (build okOracle Provider.DOCKER "dev" false false).1 = .ok () ∧
    (build okOracle Provider.DOCKER "dev" false false).2.any
      isStateCreate = true := by
  exact ⟨rfl, rfl, rfl⟩

/-- C9 amended: `build` invokes `state_service.create()`
unconditionally on its success path — also when the state already
exists — before writing the `BACKEND` and `INFRASTRUCTURE` values;
the initialize-only-if-absent check exists only in `init(url, token)`,
which creates the state exactly when `is_created()` is false. -/
theorem claim_C9_amended :
    (∀ (o : Oracle) (p : Provider) (env : String) (lb v : Bool),
       (build o p env lb v).1 = .ok () →
       (build o p env lb v).2.any isStateCreate = true) ∧
    (∀ (o : Oracle) (url token : String),
       (init o url token).2.any isStateCreate = !o.stateCreated) := by
  constructor
  · intro o p env lb v hok
    have h2 := (claim_C2 o p env lb v).1
    rcases build_cases o p env lb v with
      ⟨e, hti, hb⟩ | ⟨dir, hti, ⟨hpl, hb⟩ | ⟨hpl, hap, hb⟩ |
        ⟨hpl, hap, er, hrc, hb⟩ | ⟨hpl, hap, raw, uk, hcfg, hpc, hb⟩⟩ <;>
      rw [hb] at hok ⊢ <;> simp_all [isStateCreate]
  · intro o url token
    cases hsc : o.stateCreated <;>
      simp [init, hsc, seq_emit, seq_ret, seq, emit, ret, isStateCreate]

/-- C9 amended witness: the amended theorem instantiated at a
concrete successful run, with the success hypothesis discharged. -/
theorem claim_C9_amended_witness :
    (build okOracle Provider.DOCKER "dev" false false).2.any
      isStateCreate = true ∧
    (init okOracle "u" "t").2.any isStateCreate = !okOracle.stateCreated :=
  ⟨claim_C9_amended.1 okOracle Provider.DOCKER "dev" false false (by rfl),
   claim_C9_amended.2 okOracle "u" "t"⟩

/-- The remote-cleanup step never raises; its trace is the single
HTTP call when the state has a `BACKEND` section and empty
otherwise. -/
theorem delete_resources_eq (o : Oracle) :
    delete_resources o =
      (.ok (), if o.hasBackendSection
                 then [.httpDelete (o.stateUrl ++ "/internal/resources")]
                 else []) := by
  cases h : o.hasBackendSection <;> simp [delete_resources, h, emit, ret]

/-- The remote-cleanup step returns normally. -/
theorem delete_resources_fst (o : Oracle) : (delete_resources o).1 = .ok () := by
  rw [delete_resources_eq]

/-- The remote-cleanup step issues the HTTP call exactly when the
state has a `BACKEND` section. -/
theorem delete_resources_any_http (o : Oracle) :
    (delete_resources o).2.any isHttpDelete = o.hasBackendSection := by
  rw [delete_resources_eq]
  cases h : o.hasBackendSection <;> simp [isHttpDelete]

/-- Any recognizer that rejects HTTP calls is false on the
remote-cleanup step's trace. -/
theorem delete_resources_any_false (P : Event → Bool)
    (h : ∀ u, P (.httpDelete u) = false) (o : Oracle) :
    (delete_resources o).2.any P = false := by
  rw [delete_resources_eq]
  cases hb : o.hasBackendSection <;> simp [h]

/-- The artifact-removal step returns normally and issues the state
delete, the tree removal, and the conditional file removals, in
order. -/
theorem remove_build_files_eq (o : Oracle) :
    remove_build_files o =
      (.ok (), .stateDelete :: (.rmTree TF_DIR ::
        ((if o.tfStateExists then [Event.rmFile TF_STATE] else []) ++
         ((if o.tfConfigExists then [Event.rmFile TF_CONFIG_JSON] else []) ++
          (if o.tfStateBackupExists then [Event.rmFile TF_STATE_BACKUP] else []))))) := by
  cases h1 : o.tfStateExists <;> cases h2 : o.tfConfigExists <;>
    cases h3 : o.tfStateBackupExists <;>
    simp [remove_build_files, h1, h2, h3, seq_emit, seq, emit, ret]

/-- The artifact-removal step returns normally. -/
theorem remove_build_files_fst (o : Oracle) :
    (remove_build_files o).1 = .ok () := by
  rw [remove_build_files_eq]

/-- The artifact-removal step always deletes the persisted state. -/
theorem remove_build_files_any_stateDelete (o : Oracle) :
    (remove_build_files o).2.any isStateDelete = true := by
  rw [remove_build_files_eq]
  simp [isStateDelete]

/-- The artifact-removal step always removes the working-directory
tree. -/
theorem remove_build_files_any_rmTree (o : Oracle) :
    (remove_build_files o).2.any isRmTree = true := by
  rw [remove_build_files_eq]
  simp [isRmTree]

/-- Any recognizer that rejects state deletes, tree removals and file
removals is false on the artifact-removal step's trace. -/
theorem remove_build_files_any_false (P : Event → Bool)
    (hs : P .stateDelete = false) (ht : ∀ d, P (.rmTree d) = false)
    (hf : ∀ q, P (.rmFile q) = false) (o : Oracle) :
    (remove_build_files o).2.any P = false := by
  rw [remove_build_files_eq]
  cases h1 : o.tfStateExists <;> cases h2 : o.tfConfigExists <;>
    cases h3 : o.tfStateBackupExists <;> simp [hs, ht, hf]

/-- The three artifact paths are pairwise distinct. -/
theorem beq_state_config : (TF_STATE == TF_CONFIG_JSON) = false := by decide

/-- The three artifact paths are pairwise distinct. -/
theorem beq_state_backup : (TF_STATE == TF_STATE_BACKUP) = false := by decide

/-- The three artifact paths are pairwise distinct. -/
theorem beq_config_state : (TF_CONFIG_JSON == TF_STATE) = false := by decide

/-- The three artifact paths are pairwise distinct. -/
theorem beq_config_backup : (TF_CONFIG_JSON == TF_STATE_BACKUP) = false := by decide

/-- The three artifact paths are pairwise distinct. -/
theorem beq_backup_state : (TF_STATE_BACKUP == TF_STATE) = false := by decide

/-- The three artifact paths are pairwise distinct. -/
theorem beq_backup_config : (TF_STATE_BACKUP == TF_CONFIG_JSON) = false := by decide

/-- The artifact-removal step removes the IaC state file exactly when
it exists. -/
theorem remove_build_files_any_rmState (o : Oracle) :
    (remove_build_files o).2.any (isRmFileAt TF_STATE) = o.tfStateExists := by
  rw [remove_build_files_eq]
  cases h1 : o.tfStateExists <;> cases h2 : o.tfConfigExists <;>
    cases h3 : o.tfStateBackupExists <;>
    simp [isRmFileAt, beq_config_state, beq_backup_state]

/-- The artifact-removal step removes the JSON config exactly when it
exists. -/
theorem remove_build_files_any_rmConfig (o : Oracle) :
    (remove_build_files o).2.any (isRmFileAt TF_CONFIG_JSON) = o.tfConfigExists := by
  rw [remove_build_files_eq]
  cases h1 : o.tfStateExists <;> cases h2 : o.tfConfigExists <;>
    cases h3 : o.tfStateBackupExists <;>
    simp [isRmFileAt, beq_state_config, beq_backup_config]

/-- The artifact-removal step removes the state backup exactly when
it exists. -/
theorem remove_build_files_any_rmBackup (o : Oracle) :
    (remove_build_files o).2.any (isRmFileAt TF_STATE_BACKUP) = o.tfStateBackupExists := by
  rw [remove_build_files_eq]
  cases h1 : o.tfStateExists <;> cases h2 : o.tfConfigExists <;>
    cases h3 : o.tfStateBackupExists <;>
    simp [isRmFileAt, beq_state_backup, beq_config_backup]

/-- Exhaustive case analysis of a `destroy` run: it stops if
workspace preparation raises; otherwise the cleanup step runs (never
raising), then the IaC destroy call, and only when that call returns
normally does the artifact removal run. -/
theorem destroy_cases (o : Oracle) (p : Provider) (env : String) (v : Bool) :
    (∃ e, (tf_init o p env false true).1 = .error e ∧
       destroy o p env v =
         (.error e, .setVerbose v :: (tf_init o p env false true).2)) ∨
    (∃ dir, (tf_init o p env false true).1 = .ok dir ∧
       ((o.destroyOk = false ∧
          destroy o p env v =
            (.error .tfError, .setVerbose v :: ((tf_init o p env false true).2 ++
              ((delete_resources o).2 ++
                [.tfDestroy dir (get_vars o.getenv o.cwd p)])))) ∨
        (o.destroyOk = true ∧
          destroy o p env v =
            (.ok (), .setVerbose v :: ((tf_init o p env false true).2 ++
              ((delete_resources o).2 ++
                (.tfDestroy dir (get_vars o.getenv o.cwd p) ::
                  (remove_build_files o).2))))))) := by
  cases hti : (tf_init o p env false true).1 with
  | error e =>
    left
    refine ⟨e, rfl, ?_⟩
    simp only [destroy, seq_emit, seq_err hti]
  | ok dir =>
    right
    refine ⟨dir, rfl, ?_⟩
    cases hd : o.destroyOk with
    | false =>
      left
      refine ⟨rfl, ?_⟩
      simp only [destroy, seq_emit, seq_ok hti,
        seq_ok (delete_resources_fst o), seq_call_false hd]
    | true =>
      right
      refine ⟨rfl, ?_⟩
      simp only [destroy, seq_emit, seq_ok hti,
        seq_ok (delete_resources_fst o), seq_call_true hd,
        remove_build_files_fst o]

/-- An oracle in which the IaC destroy call raises and everything
else succeeds. -/
def destroyFailOracle : Oracle := { okOracle with destroyOk := false }

/-- C1 counterexample: when the IaC destroy call raises, `destroy`
propagates the error and never reaches `_remove_build_files` — the
persisted state is not deleted and the working-directory tree is not
removed, contradicting removal `regardless of whether the IaC destroy
step succeeded`. -/
theorem claim_C1_counterexample :
    (destroy destroyFailOracle Provider.DOCKER "dev" false).1 =
      .error .tfError ∧
    (destroy destroyFailOracle Provider.DOCKER "dev" false).2.any
      isStateDelete = false ∧
    (destroy destroyFailOracle Provider.DOCKER "dev" false).2.any
      isRmTree = false := by
  exact ⟨rfl, rfl, rfl⟩

/-- C1 amended: `destroy` removes the persisted state and the
generated artifact files exactly when the IaC destroy invocation
returns without raising; on the removal path the working-directory
tree is removed and each of the state/config/backup files is removed
exactly when it exists; and the run's outcome is independent of
whether the remote cleanup call was issued, failed, or was skipped —
it is determined by workspace preparation and the IaC destroy call
alone. -/
theorem claim_C1_amended (o : Oracle) (p : Provider) (env : String) (v : Bool) :
    ((destroy o p env v).2.any isStateDelete = true ↔
       (destroy o p env v).1 = .ok ()) ∧
    ((destroy o p env v).1 = .ok () →
       (destroy o p env v).2.any isRmTree = true ∧
       (destroy o p env v).2.any (isRmFileAt TF_STATE) = o.tfStateExists ∧
       (destroy o p env v).2.any (isRmFileAt TF_CONFIG_JSON) = o.tfConfigExists ∧
       (destroy o p env v).2.any (isRmFileAt TF_STATE_BACKUP) =
         o.tfStateBackupExists) ∧
    ((destroy o p env v).1 = .ok () ↔
       (∃ dir, (tf_init o p env false true).1 = .ok dir) ∧
         o.destroyOk = true) := by
  rcases destroy_cases o p env v with
    ⟨e, hti, hb⟩ | ⟨dir, hti, ⟨hd, hb⟩ | ⟨hd, hb⟩⟩
  · rw [hb]
    refine ⟨?_, by simp, ?_⟩
    · simp [tf_init_no_stateDelete o p env false true, isStateDelete]
    · simp [hti]
  · rw [hb]
    refine ⟨?_, by simp, ?_⟩
    · simp [tf_init_no_stateDelete o p env false true,
        delete_resources_any_false isStateDelete (fun u => rfl) o, isStateDelete]
    · simp [hti, hd]
  · rw [hb]
    refine ⟨?_, ?_, ?_⟩
    · simp [tf_init_no_stateDelete o p env false true,
        delete_resources_any_false isStateDelete (fun u => rfl) o,
        remove_build_files_any_stateDelete o, isStateDelete]
    · intro h2
      refine ⟨?_, ?_, ?_, ?_⟩
      · simp [tf_init_no_rmTree o p env false true,
          delete_resources_any_false isRmTree (fun u => rfl) o,
          remove_build_files_any_rmTree o, isRmTree]
      · simp [tf_init_no_rmFile o p env TF_STATE false true,
          delete_resources_any_false (isRmFileAt TF_STATE) (fun u => rfl) o,
          remove_build_files_any_rmState o, isRmFileAt]
      · simp [tf_init_no_rmFile o p env TF_CONFIG_JSON false true,
          delete_resources_any_false (isRmFileAt TF_CONFIG_JSON) (fun u => rfl) o,
          remove_build_files_any_rmConfig o, isRmFileAt]
      · simp [tf_init_no_rmFile o p env TF_STATE_BACKUP false true,
          delete_resources_any_false (isRmFileAt TF_STATE_BACKUP) (fun u => rfl) o,
          remove_build_files_any_rmBackup o, isRmFileAt]
    · simp [hti, hd]

/-- C1 amended witness: the amended theorem instantiated at a fully
successful concrete run, with the success hypothesis discharged. -/
theorem claim_C1_amended_witness :
    ((destroy okOracle Provider.DOCKER "dev" false).2.any isStateDelete = true ↔
       (destroy okOracle Provider.DOCKER "dev" false).1 = .ok ()) ∧
    ((destroy okOracle Provider.DOCKER "dev" false).2.any isRmTree = true ∧
     (destroy okOracle Provider.DOCKER "dev" false).2.any
       (isRmFileAt TF_STATE) = okOracle.tfStateExists ∧
     (destroy okOracle Provider.DOCKER "dev" false).2.any
       (isRmFileAt TF_CONFIG_JSON) = okOracle.tfConfigExists ∧
     (destroy okOracle Provider.DOCKER "dev" false).2.any
       (isRmFileAt TF_STATE_BACKUP) = okOracle.tfStateBackupExists) :=
  ⟨(claim_C1_amended okOracle Provider.DOCKER "dev" false).1,
   (claim_C1_amended okOracle Provider.DOCKER "dev" false).2.1 (by rfl)⟩

/-- Scanning for a cleanup call after destroy skips one non-destroy
event. -/
theorem noHttpDeleteFromDestroy_cons_skip {e : Event} {tr : Trace}
    (h : isTfDestroy e = false) :
    noHttpDeleteFromDestroy (e :: tr) = noHttpDeleteFromDestroy tr := by
  simp [noHttpDeleteFromDestroy, h]

/-- At a destroy event, the scan requires no later cleanup call. -/
theorem noHttpDeleteFromDestroy_cons_destroy {e : Event} {tr : Trace}
    (h : isTfDestroy e = true) :
    noHttpDeleteFromDestroy (e :: tr) = !tr.any isHttpDelete := by
  simp [noHttpDeleteFromDestroy, h]

/-- C6: in every `destroy` run no remote-cleanup call ever occurs at
or after the IaC destroy call, and — whenever workspace preparation
returns normally, so that the run reaches the cleanup step — the
`DELETE {state.url}/internal/resources` request is issued if and only
if the persisted state has a `BACKEND` section. -/
theorem claim_C6 (o : Oracle) (p : Provider) (env : String) (v : Bool) :
    noHttpDeleteFromDestroy (destroy o p env v).2 = true ∧
    (∀ dir, (tf_init o p env false true).1 = .ok dir →
       ((destroy o p env v).2.any isHttpDelete = o.hasBackendSection ∧
        (o.hasBackendSection = true →
          Event.httpDelete (o.stateUrl ++ "/internal/resources") ∈
            (destroy o p env v).2))) := by
  rcases destroy_cases o p env v with
    ⟨e, hti, hb⟩ | ⟨dir, hti, ⟨hd, hb⟩ | ⟨hd, hb⟩⟩
  · rw [hb]
    constructor
    · rw [noHttpDeleteFromDestroy_cons_skip (by rfl)]
      exact noHttpDeleteFromDestroy_of_no_destroy
        (tf_init_no_tfDestroy o p env false true)
    · intro dir hdir
      rw [hti] at hdir
      simp at hdir
  · rw [hb]
    constructor
    · rw [noHttpDeleteFromDestroy_cons_skip (by rfl),
        noHttpDeleteFromDestroy_append (tf_init_no_tfDestroy o p env false true),
        noHttpDeleteFromDestroy_append
          (delete_resources_any_false isTfDestroy (fun u => rfl) o),
        noHttpDeleteFromDestroy_cons_destroy (by rfl)]
      simp
    · intro dir2 hdir
      constructor
      · simp [tf_init_no_httpDelete o p env false true,
          delete_resources_any_http o, isHttpDelete]
      · intro hbs
        simp [delete_resources_eq o, hbs]
  · rw [hb]
    constructor
    · rw [noHttpDeleteFromDestroy_cons_skip (by rfl),
        noHttpDeleteFromDestroy_append (tf_init_no_tfDestroy o p env false true),
        noHttpDeleteFromDestroy_append
          (delete_resources_any_false isTfDestroy (fun u => rfl) o),
        noHttpDeleteFromDestroy_cons_destroy (by rfl)]
      simp [remove_build_files_any_false isHttpDelete rfl
        (fun d => rfl) (fun q => rfl) o]
    · intro dir2 hdir
      constructor
      · simp [tf_init_no_httpDelete o p env false true,
          delete_resources_any_http o,
          remove_build_files_any_false isHttpDelete rfl
            (fun d => rfl) (fun q => rfl) o, isHttpDelete]
      · intro hbs
        simp [delete_resources_eq o, hbs]

/-- C6 witness: the theorem instantiated at a concrete run with a
`BACKEND` section present, with the preparation-success hypothesis of
its second conjunct and its inner hypothesis discharged. -/
theorem claim_C6_witness :
    noHttpDeleteFromDestroy (destroy okOracle Provider.DOCKER "dev" false).2 =
      true ∧
    ((destroy okOracle Provider.DOCKER "dev" false).2.any isHttpDelete =
       okOracle.hasBackendSection ∧
     (okOracle.hasBackendSection = true →
       Event.httpDelete (okOracle.stateUrl ++ "/internal/resources") ∈
         (destroy okOracle Provider.DOCKER "dev" false).2)) :=
  ⟨(claim_C6 okOracle Provider.DOCKER "dev" false).1,
   (claim_C6 okOracle Provider.DOCKER "dev" false).2 "docker" (by rfl)⟩

/-- The tail of the cloud branch of `_tf_init` issues no
`copy_tree` call: the template copy can only come from the
conditional copy step. -/
theorem tf_init_rest_no_copyTree (o : Oracle) (p : Provider)
    (env dir : String) (lb : Bool) :
    (tf_init_rest o p env dir lb).2.any isCopyTree = false := by
  have h : ∀ e2 ∈ (tf_init_rest o p env dir lb).2,
      (fun x => !isCopyTree x) e2 = true := by
    unfold tf_init_rest
    apply seq_forall
    · apply ite_forall <;> intro e2 he2 <;> simp [emit, ret] at he2
      subst he2
      rfl
    intro a
    apply seq_forall
    · intro e2 he2
      simp [call] at he2
      subst he2
      rfl
    intro a2
    apply seq_forall
    · apply ite_forall <;> intro e2 he2 <;> simp [call, ret] at he2
      subst he2
      rfl
    intro a3
    apply seq_forall
    · intro e2 he2
      simp [call] at he2
      subst he2
      rfl
    intro a4
    intro e2 he2
    simp [ret] at he2
  rw [List.any_eq_false]
  intro e he
  have h2 := h e he
  simp at h2
  simp [h2]

/-- C3: for every cloud-classified provider and environment (when the
delegated environment check returns normally, so the branch is
reached), `_tf_init` with `destroying=false` always issues the
template copy from the provider's environment directory into the
working directory — re-materializing even when the directory exists —
while with `destroying=true` it issues the copy exactly when the
working directory does not yet exist. -/
theorem claim_C3 (o : Oracle) (p : Provider) (env : String) (lb : Bool)
    (hc : is_cloud_provider p = true) (he : o.checkEnvOk = true) :
    ((tf_init o p env lb false).2.any isCopyTree = true ∧
     Event.copyTree (PROVIDER_DICT p ++ "/" ++ env)
       (PROVIDER_DICT p ++ "/__working_" ++ env) ∈
         (tf_init o p env lb false).2) ∧
    (tf_init o p env lb true).2.any isCopyTree = !o.workingDirExists := by
  refine ⟨?_, ?_⟩
  · simp only [tf_init, seq_call_true he, hc, if_true]
    cases hct : o.copyTreeOk
    · simp [seq_call_false rfl, isCopyTree]
    · simp [seq_call_true rfl, isCopyTree]
  · simp only [tf_init, seq_call_true he, hc, if_true]
    cases hwd : o.workingDirExists
    · cases hct : o.copyTreeOk
      · simp [seq_call_false rfl, isCopyTree]
      · simp [seq_call_true rfl, isCopyTree]
    · simp [seq_ret, tf_init_rest_no_copyTree o p env _ lb, isCopyTree]

/-- C3 witness: the theorem instantiated at a cloud provider with a
successful environment check, both hypotheses discharged. -/
theorem claim_C3_witness :
    is_cloud_provider Provider.AWS = true ∧
    okOracle.checkEnvOk = true ∧
    (((tf_init okOracle Provider.AWS "dev" false false).2.any isCopyTree = true ∧
      Event.copyTree (PROVIDER_DICT Provider.AWS ++ "/" ++ "dev")
        (PROVIDER_DICT Provider.AWS ++ "/__working_" ++ "dev") ∈
          (tf_init okOracle Provider.AWS "dev" false false).2) ∧
     (tf_init okOracle Provider.AWS "dev" false true).2.any isCopyTree =
       !okOracle.workingDirExists) :=
  ⟨rfl, rfl, claim_C3 okOracle Provider.AWS "dev" false rfl rfl⟩

end Kaos
